import Mathlib

/-!
# A formal model of `ButtonPaginator.Paginator`

This file gives a shallow embedding of `src/ButtonPaginator/paginator.py` and
proves properties of the paginator's validator, page-transition logic, button
rendering and interaction loop.

Modelling conventions:
* Python exceptions become an explicit `PyError` value carried by `Except`;
  the constructor names and the message strings follow the source (including
  the source's `Invaild` spelling).
* Python integers are `Int`; list lengths are `Nat`.
* `discord.Embed` objects are opaque (`Embed := Nat`); only identity and
  list length matter to the paginator.
* The external transport (sending, editing and deleting messages, the
  component wait, ephemeral notices) is modelled by recording the effects a
  loop iteration performs: see `StepResult` and `Paginator.loopStep`.
-/

namespace ButtonPaginator

/-- Opaque stand-in for `discord.Embed` objects. -/
abbrev Embed := Nat

/-- The members of `discord_slash.model.ButtonStyle` the source uses. -/
def ButtonStyle.blue : Nat := 1

/-- `ButtonStyle.gray = 2`. -/
def ButtonStyle.gray : Nat := 2

/-- `ButtonStyle.green = 3`, the default style of both navigation buttons. -/
def ButtonStyle.green : Nat := 3

/-- `ButtonStyle.URL = 5`, rejected by the constructor. -/
def ButtonStyle.URL : Nat := 5

/-- The Python exceptions `paginator.py` can raise, with their classes and
message strings as in the source (`InvaildArgumentException` is the source's
own spelling). `indexError` models the `IndexError` a bad subscript raises. -/
inductive PyError where
  | missingAttributeException (msg : String)
  | invaildArgumentException (msg : String)
  | typeError (msg : String)
  | indexError (msg : String)
deriving DecidableEq, Repr

/-- Python `xs or d` for an optional list argument: `None` and the empty list
are falsy and fall back to the default `d` (lines 64-65 of the source). -/
def pyListOr {α : Type} (x : Option (List α)) (d : List α) : List α :=
  match x with
  | none => d
  | some l => if l.isEmpty then d else l

/-- Python `n or d` for integers: `0` is falsy (line 145, `self.page - 1 or 1`). -/
def pyIntOr (n d : Int) : Int :=
  if n = 0 then d else n

/-- Python subscript `l[i]` including the negative-index convention;
`none` models an `IndexError`. -/
def pyGet {α : Type} (l : List α) (i : Int) : Option α :=
  if 0 ≤ i then l.get? i.toNat
  else if (-i).toNat ≤ l.length then l.get? (l.length - (-i).toNat)
  else none

/-- The default for `basic_buttons` (line 64). -/
def defaultBasicButtons : List String := ["⬅", "➡"]

/-- The default for `extended_buttons` (line 65). -/
def defaultExtendedButtons : List String := ["⏪", "⏩"]

/-- The state a successfully constructed `Paginator` instance holds, with the
fields `__init__` assigns (the bot handle and the not-yet-sent message handle
are kept out of the pure state; `left_button` etc. model `_left_button` etc.). -/
structure Paginator where
  contents : List String
  embeds : List (Option Embed)
  header : String
  timeout : Int
  use_extend : Bool
  only : Option Nat
  basic_buttons : List String
  extended_buttons : List String
  left_button_style : Nat
  right_button_style : Nat
  delete_after_timeout : Bool
  page : Int
  left_button : String
  right_button : String
  left2_button : String
  right2_button : String
deriving DecidableEq, Repr

/-- Model of `Paginator.__init__` (lines 18-114).  The steps appear in source
order: the `or`-defaulting and the `[0]`/`[1]` subscripts of the button lists
(lines 64-73) happen before any validation, so a one-element button list
raises `IndexError` rather than reaching the length checks.  The bot-class
check (line 76) concerns only the external bot handle and is outside the
model; the `isinstance(timeout, int)` check (line 98) always passes because
the model already types `timeout` as an integer. -/
def paginatorInit (contents : Option (List String)) (embeds : Option (List Embed))
    (header : String) (timeout : Int) (use_extend : Bool) (only : Option Nat)
    (basic_buttons : Option (List String)) (extended_buttons : Option (List String))
    (left_button_style : Nat) (right_button_style : Nat) (delete_after_timeout : Bool) :
    Except PyError Paginator :=
  let bb := pyListOr basic_buttons defaultBasicButtons
  let eb := pyListOr extended_buttons defaultExtendedButtons
  match bb.get? 0, bb.get? 1, eb.get? 0, eb.get? 1 with
  | some lBtn, some rBtn, some l2Btn, some r2Btn =>
    let finish : List String → List (Option Embed) → Except PyError Paginator :=
      fun cs es =>
        if bb.length ≠ 2 then
          .error (.invaildArgumentException "There should be 2 elements in basic_buttons.")
        else if extended_buttons.isSome ∧ eb.length ≠ 2 then
          .error (.invaildArgumentException "There should be 2 elements in extended_buttons")
        else if left_button_style = ButtonStyle.URL ∨ right_button_style = ButtonStyle.URL then
          .error (.typeError "Can't use <discord_component.ButtonStyle.URL> type for button style.")
        else
          .ok { contents := cs, embeds := es, header := header, timeout := timeout,
                use_extend := use_extend, only := only, basic_buttons := bb,
                extended_buttons := eb, left_button_style := left_button_style,
                right_button_style := right_button_style,
                delete_after_timeout := delete_after_timeout, page := 1,
                left_button := lBtn, right_button := rBtn,
                left2_button := l2Btn, right2_button := r2Btn }
    match contents, embeds with
    | none, none =>
        .error (.missingAttributeException "Both contents and embeds are None.")
    | some cs, some es =>
        if cs.length ≠ es.length then
          .error (.invaildArgumentException
            "contents and embeds must be the same length if both are specified")
        else finish cs (es.map some)
    | some cs, none => finish cs (List.replicate cs.length none)
    | none, some es => finish (List.replicate es.length "") (es.map some)
  | _, _, _, _ => .error (.indexError "list index out of range")

/-- The fields of a component interaction the paginator inspects. -/
structure ComponentContext where
  origin_message_id : Nat
  author_id : Nat
  custom_id : String
deriving DecidableEq, Repr

/-- Model of `Paginator.button_check` (lines 116-129).  The first component is
the boolean the check returns; the second counts the ephemeral
"you're not the author" notices the call schedules (0 or 1).
`message_id` is `self._message.id`, the id of the active message. -/
def Paginator.button_check (self : Paginator) (message_id : Nat)
    (ctx : ComponentContext) : Bool × Nat :=
  if ctx.origin_message_id ≠ message_id then (false, 0)
  else
    match self.only with
    | none => (true, 0)
    | some uid => if ctx.author_id ≠ uid then (false, 1) else (true, 0)

/-- The page update a delivered component interaction causes (lines 142-149).
An unrecognized `custom_id` leaves the page unchanged. -/
def Paginator.applyClick (self : Paginator) (custom_id : String) : Paginator :=
  if custom_id = "_extend_left_click" then { self with page := 1 }
  else if custom_id = "_left_click" then
    { self with page := pyIntOr (self.page - 1) 1 }
  else if custom_id = "_right_click" then
    { self with page := self.page + (if self.page ≠ (self.embeds.length : Int) then 1 else 0) }
  else if custom_id = "_extend_right_click" then
    { self with page := (self.embeds.length : Int) }
  else self

/-- A button as built by `create_button`. -/
structure Button where
  style : Nat
  label : String
  custom_id : String
  disabled : Bool
deriving DecidableEq, Repr

/-- An action row as built by `create_actionrow`. -/
structure ActionRow where
  components : List Button
deriving DecidableEq, Repr

/-- Model of `Paginator._make_buttons` (lines 159-199): the basic three
buttons, with the extended pair inserted in front and appended behind when
`use_extend` is set, wrapped in a single action row. -/
def Paginator.make_buttons (self : Paginator) : List ActionRow :=
  let n : Nat := if self.embeds.isEmpty then self.contents.length else self.embeds.length
  let left_disable : Bool := self.page = 1
  let right_disable : Bool := self.page = (n : Int)
  let buttons : List Button :=
    [ { style := self.left_button_style, label := self.left_button,
        custom_id := "_left_click", disabled := left_disable },
      { style := ButtonStyle.gray,
        label := "Page " ++ toString self.page ++ " / " ++ toString n,
        custom_id := "_show_page", disabled := true },
      { style := self.right_button_style, label := self.right_button,
        custom_id := "_right_click", disabled := right_disable } ]
  let buttons :=
    if self.use_extend then
      { style := self.left_button_style, label := self.left2_button,
        custom_id := "_extend_left_click", disabled := left_disable } ::
      (buttons ++
        [ { style := self.right_button_style, label := self.right2_button,
            custom_id := "_extend_right_click", disabled := right_disable } ])
    else buttons
  [⟨buttons⟩]

/-- The message body `start` computes for the current page (lines 134-136 and
151-152): header, newline and the page's text, with the page's embed;
`none` models the `IndexError` raised when the index is out of range. -/
def Paginator.renderMessage (self : Paginator) : Option (String × Option Embed) :=
  match pyGet self.contents (self.page - 1), pyGet self.embeds (self.page - 1) with
  | some c, some e => some (self.header ++ "\n" ++ c, e)
  | _, _ => none

/-- The `timeout` keyword argument `start` passes to `wait_for_component` at
line 140: the call site omits the keyword, so the library default `None`
applies and the wait carries no time bound. -/
def Paginator.waitTimeoutArg (_self : Paginator) : Option Int := none

/-- What the loop can be woken by: a component interaction that passed
`button_check`, or an `asyncio.TimeoutError` raised inside the `try`. -/
inductive LoopEvent where
  | component (ctx : ComponentContext)
  | timeoutError
deriving DecidableEq, Repr

/-- The observable outcome of one iteration of the `while True` loop:
the state afterwards, whether `start` returned, and how many message
deletions and in-place edits the iteration performed. -/
structure StepResult where
  state : Paginator
  exited : Bool
  deletes : Nat
  edits : Nat
deriving DecidableEq, Repr

/-- One iteration of the loop in `start` (lines 138-157).  A delivered
component event updates the page and edits the message in place; a timeout
deletes the message and returns only when `delete_after_timeout` is set,
and is otherwise swallowed, the loop continuing with unchanged state. -/
def Paginator.loopStep (self : Paginator) (ev : LoopEvent) : StepResult :=
  match ev with
  | .component ctx => { state := self.applyClick ctx.custom_id, exited := false,
                        deletes := 0, edits := 1 }
  | .timeoutError =>
      if self.delete_after_timeout then
        { state := self, exited := true, deletes := 1, edits := 0 }
      else
        { state := self, exited := false, deletes := 0, edits := 0 }

/-- An incoming interaction as seen from the wait: `button_check` filters it,
and only a passing interaction is delivered to the loop body.  Returns the
state afterwards, the number of ephemeral notices sent, and the number of
in-place edits performed. -/
def Paginator.handleComponentEvent (self : Paginator) (message_id : Nat)
    (ctx : ComponentContext) : Paginator × Nat × Nat :=
  match self.button_check message_id ctx with
  | (true, notices) => (self.applyClick ctx.custom_id, notices, 1)
  | (false, notices) => (self, notices, 0)

/-! ## Example configurations -/

/-- The spec's three-page example configuration, `contents = ["A", "B", "C"]`,
with defaults otherwise. -/
def pagABC : Paginator :=
  { contents := ["A", "B", "C"], embeds := [none, none, none], header := "",
    timeout := 30, use_extend := false, only := none,
    basic_buttons := ["⬅", "➡"], extended_buttons := ["⏪", "⏩"],
    left_button_style := ButtonStyle.green, right_button_style := ButtonStyle.green,
    delete_after_timeout := false, page := 1, left_button := "⬅", right_button := "➡",
    left2_button := "⏪", right2_button := "⏩" }

/-- The same configuration restricted to user 7 (`only=<user 7>`). -/
def pagOnly7 : Paginator := { pagABC with only := some 7 }

/-- The three-page example with extended navigation on. -/
def pagExt : Paginator := { pagABC with use_extend := true }

/-- The paginator produced by constructing from the empty `contents` list. -/
def pagEmpty : Paginator :=
  { contents := [], embeds := [], header := "", timeout := 30, use_extend := false,
    only := none, basic_buttons := ["⬅", "➡"], extended_buttons := ["⏪", "⏩"],
    left_button_style := ButtonStyle.green, right_button_style := ButtonStyle.green,
    delete_after_timeout := false, page := 1, left_button := "⬅", right_button := "➡",
    left2_button := "⏪", right2_button := "⏩" }

/-- The single-page paginator used in the validator counterexamples. -/
def pagA : Paginator :=
  { pagEmpty with contents := ["A"], embeds := [none] }

/-! ## Theorems -/

/-- Helper: the facts a successful construction guarantees about the stored
state — the page starts at 1, the two page lists have equal length, and a
list that was not supplied is the synthesized placeholder sequence. -/
theorem paginatorInit_ok_facts
    (c? : Option (List String)) (e? : Option (List Embed)) (header : String)
    (timeout : Int) (ue : Bool) (only : Option Nat) (bb? eb? : Option (List String))
    (ls rs : Nat) (dat : Bool) (p : Paginator)
    (h : paginatorInit c? e? header timeout ue only bb? eb? ls rs dat = .ok p) :
    p.page = 1 ∧ p.contents.length = p.embeds.length ∧
    (e? = none → ∃ cs, c? = some cs ∧ p.contents = cs ∧
      p.embeds = List.replicate cs.length none) ∧
    (c? = none → ∃ es, e? = some es ∧ p.embeds = es.map some ∧
      p.contents = List.replicate es.length "") := by
  simp only [paginatorInit] at h
  repeat' split at h
  any_goals exact (Except.noConfusion h)
  all_goals obtain rfl := Except.ok.inj h
  all_goals simp_all

/-- C1 (code bug): `start` issues its wait without any time bound — the
`timeout` keyword is omitted at the `wait_for_component` call site, so the
configured `timeout` value never bounds the wait — and even when a timeout
signal is raised inside the loop, the loop exits only when
`delete_after_timeout` is set; with the flag clear the signal is swallowed
and the loop keeps running.  Both parts contradict the claim that the wait
is bounded by the configured timeout and that a timeout always exits. -/
theorem start_wait_unbounded_and_timeout_swallowed (self : Paginator) :
    self.waitTimeoutArg = none ∧ self.waitTimeoutArg ≠ some self.timeout ∧
    ((self.loopStep LoopEvent.timeoutError).exited = true ↔
      self.delete_after_timeout = true) := by
  refine ⟨rfl, by simp [Paginator.waitTimeoutArg], ?_⟩
  cases h : self.delete_after_timeout <;> simp [Paginator.loopStep, h]

/-- C2 counterexample: in the spec's scenario with `delete_after_timeout`
clear, a timeout signal does not make `start` return — the loop continues
with unchanged state and nothing deleted — contradicting the claim that
`start` returns after the timeout in both cases. -/
theorem timeout_without_delete_does_not_return_cex :
    pagABC.delete_after_timeout = false ∧
    (pagABC.loopStep LoopEvent.timeoutError).exited = false ∧
    (pagABC.loopStep LoopEvent.timeoutError).deletes = 0 ∧
    (pagABC.loopStep LoopEvent.timeoutError).state = pagABC := by
  refine ⟨rfl, rfl, rfl, rfl⟩

/-- C2 (amended): on a timeout signal, when `delete_after_timeout` is set the
message is deleted exactly once and `start` returns; when it is clear nothing
is deleted, no edit happens, and the loop continues with unchanged state
(`start` does not return). -/
theorem timeout_step_delete_iff_flag (self : Paginator) :
    (self.loopStep LoopEvent.timeoutError).deletes =
      (if self.delete_after_timeout then 1 else 0) ∧
    (self.loopStep LoopEvent.timeoutError).exited = self.delete_after_timeout ∧
    (self.loopStep LoopEvent.timeoutError).edits = 0 ∧
    (self.loopStep LoopEvent.timeoutError).state = self := by
  cases h : self.delete_after_timeout <;> simp [Paginator.loopStep, h]

/-- C4: under the invariant `1 ≤ page ≤ N` with `N` the page count, the four
control identifiers update the page as `first ↦ 1`,
`prev ↦ max (page - 1) 1`, `next ↦ min (page + 1) N`, `last ↦ N`. -/
theorem applyClick_transition_table (self : Paginator)
    (h1 : 1 ≤ self.page) (h2 : self.page ≤ (self.embeds.length : Int)) :
    (self.applyClick "_extend_left_click").page = 1 ∧
    (self.applyClick "_left_click").page = max (self.page - 1) 1 ∧
    (self.applyClick "_right_click").page = min (self.page + 1) (self.embeds.length : Int) ∧
    (self.applyClick "_extend_right_click").page = (self.embeds.length : Int) := by
  refine ⟨rfl, ?_, ?_, rfl⟩
  · show pyIntOr (self.page - 1) 1 = max (self.page - 1) 1
    unfold pyIntOr
    split_ifs with h <;> omega
  · show self.page + (if self.page ≠ (self.embeds.length : Int) then 1 else 0) =
      min (self.page + 1) (self.embeds.length : Int)
    split_ifs with h <;> omega

/-- C4 witness: the transition table evaluated on the example configuration
at page 2 of 3. -/
theorem applyClick_transition_table_witness :
    (({ pagABC with page := 2 } : Paginator).applyClick "_extend_left_click").page = 1 ∧
    (({ pagABC with page := 2 } : Paginator).applyClick "_left_click").page = max (2 - 1) 1 ∧
    (({ pagABC with page := 2 } : Paginator).applyClick "_right_click").page = min (2 + 1) 3 ∧
    (({ pagABC with page := 2 } : Paginator).applyClick "_extend_right_click").page = 3 :=
  applyClick_transition_table { pagABC with page := 2 } (by decide) (by decide)

/-- C9: with `only` set, an interaction on the active message from any other
actor leaves the paginator state (in particular the page) unchanged, sends
exactly one ephemeral notice, and performs no edit — the loop just keeps
waiting. -/
theorem foreign_actor_one_notice_no_change (self : Paginator) (message_id uid : Nat)
    (ctx : ComponentContext) (honly : self.only = some uid)
    (hmsg : ctx.origin_message_id = message_id) (hactor : ctx.author_id ≠ uid) :
    self.handleComponentEvent message_id ctx = (self, 1, 0) := by
  simp [Paginator.handleComponentEvent, Paginator.button_check, hmsg, honly, hactor]

/-- C9 witness: user 9 clicking `next` on the active message of the
user-7-restricted example changes nothing and draws one notice. -/
theorem foreign_actor_one_notice_no_change_witness :
    pagOnly7.handleComponentEvent 100
      { origin_message_id := 100, author_id := 9, custom_id := "_right_click" } =
      (pagOnly7, 1, 0) :=
  foreign_actor_one_notice_no_change pagOnly7 100 7
    { origin_message_id := 100, author_id := 9, custom_id := "_right_click" }
    (by decide) (by decide) (by decide)

/-- C10: `button_check` tests message identity before actor identity — an
interaction targeting any other message is rejected with no ephemeral notice,
whatever `only` is; a notice can only be produced by an interaction that
targets the active message. -/
theorem message_identity_checked_first (self : Paginator) (message_id : Nat)
    (ctx : ComponentContext) :
    (ctx.origin_message_id ≠ message_id → self.button_check message_id ctx = (false, 0)) ∧
    ((self.button_check message_id ctx).2 ≠ 0 → ctx.origin_message_id = message_id) := by
  constructor
  · intro h
    simp [Paginator.button_check, h]
  · intro h
    by_contra hne
    simp [Paginator.button_check, hne] at h

/-- C10 witness: a foreign actor's interaction on a different message is
dropped silently even though the example paginator is restricted to user 7. -/
theorem message_identity_checked_first_witness :
    pagOnly7.button_check 100
      { origin_message_id := 101, author_id := 9, custom_id := "_right_click" } =
      (false, 0) :=
  (message_identity_checked_first pagOnly7 100
    { origin_message_id := 101, author_id := 9, custom_id := "_right_click" }).1
    (by decide)

/-- C3: the page invariant `1 ≤ currentPage ≤ N`.  Every successful
construction starts at page 1, so the invariant holds initially whenever the
configuration has at least one page; and every page transition of the
interaction loop — for every control identifier whatsoever — preserves it. -/
theorem page_invariant_init_and_preserved :
    (∀ (c? : Option (List String)) (e? : Option (List Embed)) (header : String)
        (timeout : Int) (ue : Bool) (only : Option Nat) (bb? eb? : Option (List String))
        (ls rs : Nat) (dat : Bool) (p : Paginator),
      paginatorInit c? e? header timeout ue only bb? eb? ls rs dat = .ok p →
        p.page = 1 ∧ (1 ≤ p.embeds.length →
          1 ≤ p.page ∧ p.page ≤ (p.embeds.length : Int))) ∧
    (∀ (self : Paginator) (cid : String),
      1 ≤ self.page → self.page ≤ (self.embeds.length : Int) →
        1 ≤ (self.applyClick cid).page ∧
        (self.applyClick cid).page ≤ ((self.applyClick cid).embeds.length : Int)) := by
  constructor
  · intro c? e? header timeout ue only bb? eb? ls rs dat p h
    have hp : p.page = 1 :=
      (paginatorInit_ok_facts c? e? header timeout ue only bb? eb? ls rs dat p h).1
    refine ⟨hp, fun hN => ⟨by omega, ?_⟩⟩
    rw [hp]
    omega
  · intro self cid h1 h2
    unfold Paginator.applyClick pyIntOr
    split_ifs <;> constructor <;> (try simp) <;> omega

/-- C3 witness: the invariant evaluated on the example configuration, at
construction and across a `next` click. -/
theorem page_invariant_init_and_preserved_witness :
    (pagABC.page = 1 ∧ (1 ≤ pagABC.embeds.length →
      1 ≤ pagABC.page ∧ pagABC.page ≤ (pagABC.embeds.length : Int))) ∧
    (1 ≤ (pagABC.applyClick "_right_click").page ∧
      (pagABC.applyClick "_right_click").page ≤
        (((pagABC.applyClick "_right_click").embeds.length : Int))) :=
  ⟨page_invariant_init_and_preserved.1 (some ["A", "B", "C"]) none "" 30 false none
      none none ButtonStyle.green ButtonStyle.green false pagABC (by rfl),
    page_invariant_init_and_preserved.2 pagABC "_right_click" (by decide) (by decide)⟩

/-- C5: for a paginator whose two page lists agree in length (as every
successful construction guarantees), the rendered control row is, in order:
when extended navigation is on, a jump-to-first control disabled iff the page
is 1; a previous control disabled iff the page is 1; a non-interactive label
reading "Page {p} / {N}"; a next control disabled iff the page is N; and,
when extended, a jump-to-last control disabled iff the page is N. -/
theorem make_buttons_layout (self : Paginator)
    (h : self.contents.length = self.embeds.length) :
    self.make_buttons = [⟨
      (if self.use_extend then
        [{ style := self.left_button_style, label := self.left2_button,
           custom_id := "_extend_left_click", disabled := decide (self.page = 1) }]
       else []) ++
      [{ style := self.left_button_style, label := self.left_button,
         custom_id := "_left_click", disabled := decide (self.page = 1) },
       { style := ButtonStyle.gray,
         label := "Page " ++ toString self.page ++ " / " ++ toString self.embeds.length,
         custom_id := "_show_page", disabled := true },
       { style := self.right_button_style, label := self.right_button,
         custom_id := "_right_click",
         disabled := decide (self.page = (self.embeds.length : Int)) }] ++
      (if self.use_extend then
        [{ style := self.right_button_style, label := self.right2_button,
           custom_id := "_extend_right_click",
           disabled := decide (self.page = (self.embeds.length : Int)) }]
       else [])⟩] := by
  have hn : (if self.embeds.isEmpty then self.contents.length else self.embeds.length) =
      self.embeds.length := by
    by_cases he : self.embeds.isEmpty
    · simpa [he, List.isEmpty_iff.mp he] using h
    · simp [he]
  simp only [Paginator.make_buttons, hn]
  cases hu : self.use_extend <;> simp [hu]

/-- C5 witness: the extended-navigation example at page 1 of 3 renders the
five controls in order with `first`/`prev` disabled and `next`/`last`
enabled. -/
theorem make_buttons_layout_witness :
    pagExt.make_buttons = [⟨[
      { style := 3, label := "⏪", custom_id := "_extend_left_click", disabled := true },
      { style := 3, label := "⬅", custom_id := "_left_click", disabled := true },
      { style := 2, label := "Page 1 / 3", custom_id := "_show_page", disabled := true },
      { style := 3, label := "➡", custom_id := "_right_click", disabled := false },
      { style := 3, label := "⏩", custom_id := "_extend_right_click", disabled := false }]⟩] :=
  make_buttons_layout pagExt (by decide)

/-- C7: after every successful construction the two page sequences have equal
length, and when only one of them was supplied the other was synthesized as a
same-length sequence of empty placeholders (`None` embeds, `""` texts). -/
theorem synthesized_pages_equal_length
    (c? : Option (List String)) (e? : Option (List Embed)) (header : String)
    (timeout : Int) (ue : Bool) (only : Option Nat) (bb? eb? : Option (List String))
    (ls rs : Nat) (dat : Bool) (p : Paginator)
    (h : paginatorInit c? e? header timeout ue only bb? eb? ls rs dat = .ok p) :
    p.contents.length = p.embeds.length ∧
    (e? = none → ∃ cs, c? = some cs ∧ p.contents = cs ∧
      p.embeds = List.replicate cs.length none) ∧
    (c? = none → ∃ es, e? = some es ∧ p.embeds = es.map some ∧
      p.contents = List.replicate es.length "") := by
  obtain ⟨-, h1, h2, h3⟩ :=
    paginatorInit_ok_facts c? e? header timeout ue only bb? eb? ls rs dat p h
  exact ⟨h1, h2, h3⟩

/-- C7 witness: the example construction from `contents` alone synthesizes a
same-length embed list of `None` placeholders. -/
theorem synthesized_pages_equal_length_witness :
    pagABC.contents.length = pagABC.embeds.length ∧
    pagABC.embeds = List.replicate (["A", "B", "C"] : List String).length none :=
  ⟨(synthesized_pages_equal_length (some ["A", "B", "C"]) none "" 30 false none
      none none ButtonStyle.green ButtonStyle.green false pagABC (by rfl)).1,
    by
      obtain ⟨cs, hcs, -, hemb⟩ :=
        (synthesized_pages_equal_length (some ["A", "B", "C"]) none "" 30 false none
          none none ButtonStyle.green ButtonStyle.green false pagABC (by rfl)).2.1 rfl
      obtain rfl := Option.some.inj hcs
      exact hemb⟩

/-- C8 counterexample: the validator accepts an empty `contents` list — the
construction succeeds with zero pages — and the first render of the resulting
paginator is out of bounds (`renderMessage` is `none`, modelling the
`IndexError` that `start` would raise at line 135). -/
theorem empty_contents_accepted_cex :
    paginatorInit (some []) none "" 30 false none none none ButtonStyle.green
      ButtonStyle.green false = .ok pagEmpty ∧
    pagEmpty.contents.length = 0 ∧ pagEmpty.renderMessage = none :=
  ⟨rfl, rfl, rfl⟩

/-- C8 (amended): the validator does not enforce a minimum page count — it
accepts empty page lists, for which the first render raises — but every
accepted configuration starts at page 1, and whenever the accepted page list
is nonempty the first render, which indexes position `currentPage - 1 = 0`,
is in bounds and produces a message. -/
theorem accepted_first_render_in_bounds
    (c? : Option (List String)) (e? : Option (List Embed)) (header : String)
    (timeout : Int) (ue : Bool) (only : Option Nat) (bb? eb? : Option (List String))
    (ls rs : Nat) (dat : Bool) (p : Paginator)
    (h : paginatorInit c? e? header timeout ue only bb? eb? ls rs dat = .ok p) :
    p.page = 1 ∧ (1 ≤ p.contents.length → p.renderMessage.isSome) := by
  obtain ⟨hp, hlen, -, -⟩ :=
    paginatorInit_ok_facts c? e? header timeout ue only bb? eb? ls rs dat p h
  refine ⟨hp, fun hc => ?_⟩
  rcases hcs : p.contents with - | ⟨a, as⟩
  · rw [hcs] at hc; simp at hc
  · rcases hes : p.embeds with - | ⟨b, bs⟩
    · rw [hcs, hes] at hlen; simp at hlen
    · simp [Paginator.renderMessage, pyGet, hp, hcs, hes]

/-- C8 witness: the three-page example construction is accepted and its first
render is in bounds. -/
theorem accepted_first_render_in_bounds_witness :
    pagABC.page = 1 ∧ pagABC.renderMessage.isSome :=
  ⟨(accepted_first_render_in_bounds (some ["A", "B", "C"]) none "" 30 false none
      none none ButtonStyle.green ButtonStyle.green false pagABC (by rfl)).1,
    (accepted_first_render_in_bounds (some ["A", "B", "C"]) none "" 30 false none
      none none ButtonStyle.green ButtonStyle.green false pagABC (by rfl)).2
      (by decide)⟩

/-- C6 counterexample: a supplied empty `basic_buttons` list has 0 ≠ 2
entries, yet construction succeeds — the empty list is falsy in Python, so
`basic_buttons or [default]` silently replaces it before the length check —
and a supplied one-element list raises `IndexError` at the attribute
assignments of lines 70-71, not the claimed `ArgumentCount` failure. -/
theorem empty_basic_buttons_accepted_cex :
    paginatorInit (some ["A"]) none "" 30 false none (some []) none
      ButtonStyle.green ButtonStyle.green false = .ok pagA ∧
    paginatorInit (some ["A"]) none "" 30 false none (some ["⬅"]) none
      ButtonStyle.green ButtonStyle.green false =
      .error (.indexError "list index out of range") :=
  ⟨rfl, rfl⟩

set_option maxHeartbeats 2000000 in
/-- C6 (amended): a supplied button list of exactly one element raises
`IndexError` during attribute setup, before every validation check; past
that, construction fails with `MissingContent` exactly when neither page list
is supplied, and with `ArgumentMismatch` exactly when both are supplied with
different lengths; an empty supplied button list is silently replaced by the
two-glyph default and accepted; and the `ArgumentCount` failure is raised for
the basic (resp. explicitly supplied extended) button list exactly when that
list has three or more entries and every earlier check passed. -/
theorem init_failure_characterization
    (c? : Option (List String)) (e? : Option (List Embed)) (header : String)
    (timeout : Int) (ue : Bool) (only : Option Nat) (bb? eb? : Option (List String))
    (ls rs : Nat) (dat : Bool) :
    (paginatorInit c? e? header timeout ue only bb? eb? ls rs dat =
        .error (.indexError "list index out of range") ↔
      (∃ l, bb? = some l ∧ l.length = 1) ∨ (∃ l, eb? = some l ∧ l.length = 1)) ∧
    (paginatorInit c? e? header timeout ue only bb? eb? ls rs dat =
        .error (.missingAttributeException "Both contents and embeds are None.") ↔
      c? = none ∧ e? = none ∧
      ¬(∃ l, bb? = some l ∧ l.length = 1) ∧ ¬(∃ l, eb? = some l ∧ l.length = 1)) ∧
    (paginatorInit c? e? header timeout ue only bb? eb? ls rs dat =
        .error (.invaildArgumentException
          "contents and embeds must be the same length if both are specified") ↔
      (∃ cs es, c? = some cs ∧ e? = some es ∧ cs.length ≠ es.length) ∧
      ¬(∃ l, bb? = some l ∧ l.length = 1) ∧ ¬(∃ l, eb? = some l ∧ l.length = 1)) ∧
    (paginatorInit c? e? header timeout ue only bb? eb? ls rs dat =
        .error (.invaildArgumentException "There should be 2 elements in basic_buttons.") ↔
      (∃ l, bb? = some l ∧ 3 ≤ l.length) ∧ ¬(∃ l, eb? = some l ∧ l.length = 1) ∧
      ¬(c? = none ∧ e? = none) ∧
      ¬(∃ cs es, c? = some cs ∧ e? = some es ∧ cs.length ≠ es.length)) ∧
    (paginatorInit c? e? header timeout ue only bb? eb? ls rs dat =
        .error (.invaildArgumentException "There should be 2 elements in extended_buttons") ↔
      (∃ l, eb? = some l ∧ 3 ≤ l.length) ∧ ¬(∃ l, bb? = some l ∧ l.length = 1) ∧
      ¬(∃ l, bb? = some l ∧ 3 ≤ l.length) ∧ ¬(c? = none ∧ e? = none) ∧
      ¬(∃ cs es, c? = some cs ∧ e? = some es ∧ cs.length ≠ es.length)) := by
  rcases bb? with - | ⟨- | ⟨b0, - | ⟨b1, - | ⟨b2, bs⟩⟩⟩⟩ <;>
    rcases eb? with - | ⟨- | ⟨f0, - | ⟨f1, - | ⟨f2, fs⟩⟩⟩⟩ <;>
    rcases c? with - | cs <;> rcases e? with - | es <;>
    simp [paginatorInit, pyListOr, defaultBasicButtons, defaultExtendedButtons] <;>
    split_ifs <;> simp_all

end ButtonPaginator
